import Mathlib

/-!
Shallow embedding of the AirAware AI service analytic engine
(`ai_service/main.py`).

Modelling conventions:
* Python `float` is modelled as `ℚ`, Python `int` as `ℤ`, `str` as `String`.
* Python `round` (round half to even) is `pythonRound`; `round(x, 1)` is
  `pythonRound1`; `int(x)` truncation toward zero is `pythonInt`.
* `datetime.now()` is modelled by threading the current wall-clock time
  through explicitly as an absolute hour count `now : ℕ`; the `hour`
  field of `now + h` is `(now + h) % 24` (naive-datetime arithmetic).
* Endpoints that can return a structured error payload or abort with a
  Python exception are modelled with `Except`.
* Python truthiness tests on numbers (`if air_quality.pm25:`,
  `if air_quality.co2 and ...`) are translated as the corresponding
  "non-zero / present" conditions.
-/

/-- Python `round(q)`: round half to even (banker's rounding). -/
def pythonRound (q : ℚ) : ℤ :=
  let f := ⌊q⌋
  let r := q - f
  if r < 1/2 then f
  else if 1/2 < r then f + 1
  else if f % 2 = 0 then f else f + 1

/-- Python `round(q, 1)`: round to one decimal digit, half to even. -/
def pythonRound1 (q : ℚ) : ℚ :=
  (pythonRound (q * 10) : ℚ) / 10

/-- Python `int(q)`: truncation toward zero. -/
def pythonInt (q : ℚ) : ℤ :=
  if 0 ≤ q then ⌊q⌋ else -⌊-q⌋

/-- Python `l[-n:]`: the last `n` elements (the whole list when it is shorter). -/
def lastN (n : ℕ) (l : List ℤ) : List ℤ := l.drop (l.length - n)

/-- `np.mean` of a list of integers, as an exact rational. -/
def npMean (l : List ℤ) : ℚ := (l.sum : ℚ) / l.length

/-- `SensitivityLevel` enum. -/
inductive SensitivityLevel
  | low
  | moderate
  | high
  | very_high
deriving DecidableEq

/-- `ActivityType` enum. -/
inductive ActivityType
  | resting
  | light_activity
  | moderate_exercise
  | intense_exercise
deriving DecidableEq

/-- `AirQualityData` model. -/
structure AirQualityData where
  pm25 : ℚ
  pm10 : Option ℚ
  co2 : Option ℤ
  o3 : Option ℚ
  no2 : Option ℚ
  aqi : ℤ
  temperature : ℚ
  humidity : ℚ
  timestamp : ℤ
deriving DecidableEq

/-- `HealthProfile` model. -/
structure HealthProfile where
  age : ℤ
  has_asthma : Bool
  has_copd : Bool
  has_heart_condition : Bool
  is_pregnant : Bool
  is_child : Bool
  is_elderly : Bool
  sensitivity_level : SensitivityLevel
deriving DecidableEq

/-- `RecommendationRequest` model. -/
structure RecommendationRequest where
  air_quality : AirQualityData
  health_profile : HealthProfile
  intended_activity : ActivityType
  duration_minutes : ℤ
  location_type : String
deriving DecidableEq

/-- The `AQI_CATEGORIES` table: label with inclusive (low, high) bounds,
in source order. -/
def AQI_CATEGORIES : List (String × ℤ × ℤ) :=
  [("good", 0, 50),
   ("moderate", 51, 100),
   ("unhealthy_sensitive", 101, 150),
   ("unhealthy", 151, 200),
   ("very_unhealthy", 201, 300),
   ("hazardous", 301, 500)]

/-- The `for category, (low, high) in AQI_CATEGORIES.items()` loop body of
`get_aqi_category`: first entry whose inclusive band contains `aqi`. -/
def categoryLookup (aqi : ℤ) : List (String × ℤ × ℤ) → Option String
  | [] => none
  | p :: rest => if p.2.1 ≤ aqi ∧ aqi ≤ p.2.2 then some p.1 else categoryLookup aqi rest

/-- `get_aqi_category`: first matching band of `AQI_CATEGORIES`, falling
through to `"hazardous"`. -/
def get_aqi_category (aqi : ℤ) : String :=
  (categoryLookup aqi AQI_CATEGORIES).getD "hazardous"

/-- The `activity_multipliers` table of `calculate_health_risk_score`. -/
def activity_multipliers : ActivityType → ℚ
  | .resting => 1.0
  | .light_activity => 1.3
  | .moderate_exercise => 1.8
  | .intense_exercise => 2.5

/-- The `sensitivity_multipliers` table of `calculate_health_risk_score`. -/
def sensitivity_multipliers : SensitivityLevel → ℚ
  | .low => 0.8
  | .moderate => 1.0
  | .high => 1.4
  | .very_high => 1.8

/-- `calculate_health_risk_score`: personalized health risk score.
The `if air_quality.pm25:` truthiness test fires exactly when `pm25 ≠ 0`. -/
def calculate_health_risk_score (air_quality : AirQualityData)
    (health_profile : HealthProfile) (activity : ActivityType) : ℚ :=
  let base_risk : ℚ := (air_quality.aqi : ℚ) / 5
  let base_risk := if air_quality.pm25 ≠ 0 then
      max base_risk (min (air_quality.pm25 / 2) 100) else base_risk
  let base_risk := base_risk * activity_multipliers activity
  let base_risk := base_risk * sensitivity_multipliers health_profile.sensitivity_level
  let base_risk := if health_profile.has_asthma || health_profile.has_copd then
      base_risk * 1.5 else base_risk
  let base_risk := if health_profile.has_heart_condition then base_risk * 1.3 else base_risk
  let base_risk := if health_profile.is_child || health_profile.is_elderly then
      base_risk * 1.2 else base_risk
  let base_risk := if health_profile.is_pregnant then base_risk * 1.3 else base_risk
  let base_risk := if health_profile.age < 12 then base_risk * 1.2
    else if 65 < health_profile.age then base_risk * 1.3 else base_risk
  min base_risk 100

/-- `get_risk_level`. -/
def get_risk_level (risk_score : ℚ) : String :=
  if risk_score < 30 then "low"
  else if risk_score < 50 then "moderate"
  else if risk_score < 70 then "high"
  else "very_high"

/-- `calculate_safe_window`: safe outdoor activity duration in minutes. -/
def calculate_safe_window (air_quality : AirQualityData)
    (health_profile : HealthProfile) : ℤ :=
  if air_quality.aqi < 50 then 240
  else if air_quality.aqi < 100 then 120
  else if air_quality.aqi < 150 then
    if health_profile.sensitivity_level = .high ∨
        health_profile.sensitivity_level = .very_high then 30 else 60
  else if air_quality.aqi < 200 then
    if health_profile.sensitivity_level = .low then 30 else 15
  else 0

/-- `should_wear_mask`. -/
def should_wear_mask (risk_score : ℚ) (location_type : String) : Bool :=
  decide (60 < risk_score ∧ location_type = "outdoor")

/-- `should_use_purifier`. -/
def should_use_purifier (air_quality : AirQualityData) (location_type : String) : Bool :=
  decide (location_type = "indoor" ∧ (35 < air_quality.pm25 ∨ 100 < air_quality.aqi))

/-- One entry of the `recommendations` list. -/
structure Recommendation where
  priority : String
  action : String
  message : String
  icon : String
deriving DecidableEq

/-- `generate_recommendations`: the rule cascade, appended in source order.
The `if air_quality.co2 and air_quality.co2 > 1000:` truthiness test fires
exactly when `co2` is present and greater than 1000. -/
def generate_recommendations (risk_score : ℚ) (aqi_category : String)
    (air_quality : AirQualityData) (health_profile : HealthProfile)
    (activity : ActivityType) (duration : ℤ) (location_type : String) :
    List Recommendation :=
  (if risk_score < 30 then
    [⟨"info", "safe_to_proceed", "Air quality is good. Safe for all activities.", "✅"⟩]
   else if risk_score < 50 then
    [⟨"low", "proceed_with_awareness",
      "Air quality is acceptable. Sensitive individuals should consider reducing prolonged outdoor exertion.", "ℹ️"⟩]
   else if risk_score < 70 then
    [⟨"medium", "limit_outdoor",
      "Air quality is unhealthy for sensitive groups. Consider limiting outdoor activities.", "⚠️"⟩]
   else
    [⟨"high", "avoid_outdoor",
      "Air quality is unhealthy. Avoid outdoor activities. Stay indoors with air purification.", "🚫"⟩])
  ++ (if (activity = .moderate_exercise ∨ activity = .intense_exercise) ∧ 50 < risk_score then
    [⟨"medium", "modify_activity",
      "Consider indoor exercise or reduce intensity. Current conditions increase respiratory strain.", "🏃"⟩]
    else [])
  ++ (if 60 < risk_score ∧ location_type = "outdoor" then
    [⟨if 80 < risk_score then "high" else "medium", "wear_mask",
      "Wear a " ++ (if 80 < risk_score then "N95" else "surgical mask") ++
        " when outdoors to reduce particulate exposure.", "😷"⟩]
    else [])
  ++ (if location_type = "indoor" then
    (match air_quality.co2 with
     | some c => if 1000 < c then
        [⟨"medium", "improve_ventilation",
          "CO₂ levels are high. Open windows or improve ventilation.", "🪟"⟩] else []
     | none => [])
    ++ (if 35 < air_quality.pm25 then
      [⟨"high", "use_air_purifier",
        "Use an air purifier with HEPA filter to reduce indoor PM2.5.", "🌀"⟩] else [])
    else [])
  ++ (if health_profile.has_asthma ∧ 40 < risk_score then
    [⟨"high", "have_inhaler", "Keep your rescue inhaler accessible. Monitor for symptoms.", "💊"⟩]
    else [])
  ++ (if 50 < risk_score then
    [⟨"low", "stay_hydrated", "Drink plenty of water to help your body cope with pollutants.", "💧"⟩]
    else [])

/-- Response record of the `/analyze-health-risk` endpoint. -/
structure AnalyzeResponse where
  risk_score : ℚ
  risk_level : String
  aqi_category : String
  recommendations : List Recommendation
  safe_activity_duration : ℤ
  requires_mask : Bool
  air_purifier_recommended : Bool
deriving DecidableEq

/-- `analyze_health_risk` endpoint body (total: no exception can occur in it,
so no `Except` wrapper is needed). -/
def analyze_health_risk (request : RecommendationRequest) : AnalyzeResponse :=
  let risk_score := calculate_health_risk_score request.air_quality
    request.health_profile request.intended_activity
  let aqi_category := get_aqi_category request.air_quality.aqi
  let recommendations := generate_recommendations risk_score aqi_category
    request.air_quality request.health_profile request.intended_activity
    request.duration_minutes request.location_type
  let safe_window := calculate_safe_window request.air_quality request.health_profile
  { risk_score := pythonRound1 risk_score
    risk_level := get_risk_level risk_score
    aqi_category := aqi_category
    recommendations := recommendations
    safe_activity_duration := safe_window
    requires_mask := should_wear_mask risk_score request.location_type
    air_purifier_recommended := should_use_purifier request.air_quality request.location_type }

/-- One entry of the `forecasts` list of `/forecast-aqi`; the timestamp is
the absolute hour count of the forecast point. -/
structure ForecastPoint where
  timestamp : ℕ
  predicted_aqi : ℤ
  category : String
  confidence : String
deriving DecidableEq

/-- One entry of `best_activity_times`. -/
structure BestTime where
  time : ℕ
  aqi : ℤ
  suitable_for : String
deriving DecidableEq

/-- Response record of `/forecast-aqi` (success case). -/
structure ForecastResponse where
  location : List (String × ℚ)
  forecast_generated_at : ℕ
  forecasts : List ForecastPoint
  trend : String
  best_activity_times : List BestTime
deriving DecidableEq

/-- Structured error payload of `/forecast-aqi`
(the `{"error": "Need at least 24 hours of historical data"}` return). -/
inductive ForecastError
  | insufficientHistory
deriving DecidableEq

/-- `find_best_activity_times`: keep points with predicted AQI below 150,
labelled by band, capped at 5 entries. -/
def find_best_activity_times (forecasts : List ForecastPoint) : List BestTime :=
  (forecasts.filterMap (fun f =>
    if f.predicted_aqi < 100 then some ⟨f.timestamp, f.predicted_aqi, "all_activities"⟩
    else if f.predicted_aqi < 150 then some ⟨f.timestamp, f.predicted_aqi, "light_activities"⟩
    else none)).take 5

/-- `forecast_aqi` endpoint body.  `historical_data` is the list of `aqi`
fields of the supplied readings (the only field the code reads); `now` is
the wall-clock value of `datetime.now()` as an absolute hour count. -/
def forecast_aqi (historical_data : List ℤ) (location : List (String × ℚ))
    (hours_ahead : ℕ) (now : ℕ) : Except ForecastError ForecastResponse :=
  if historical_data.length < 24 then .error .insufficientHistory
  else
    let aqi_values := lastN 168 historical_data
    let ma_24 : ℚ := npMean (lastN 24 aqi_values)
    let ma_48 : ℚ := if 48 ≤ aqi_values.length then npMean (lastN 48 aqi_values) else ma_24
    let trend := ma_24 - ma_48
    let forecasts := (List.range hours_ahead).map (fun hour =>
      let future_time := now + hour
      let predicted_aqi := ma_24 + trend * (hour : ℚ) / 24
      let hour_of_day := future_time % 24
      let predicted_aqi :=
        if (7 ≤ hour_of_day ∧ hour_of_day ≤ 9) ∨ (17 ≤ hour_of_day ∧ hour_of_day ≤ 19) then
          predicted_aqi * 1.15
        else if 2 ≤ hour_of_day ∧ hour_of_day ≤ 5 then predicted_aqi * 0.90
        else predicted_aqi
      let predicted_aqi := max 0 (min 500 predicted_aqi)
      { timestamp := future_time
        predicted_aqi := pythonRound predicted_aqi
        category := get_aqi_category (pythonInt predicted_aqi)
        confidence := "medium" : ForecastPoint })
    .ok { location := location
          forecast_generated_at := now
          forecasts := forecasts
          trend := if trend < -5 then "improving"
            else if 5 < trend then "worsening" else "stable"
          best_activity_times := find_best_activity_times forecasts }

/-- The `breathing_rates` table of `calculate_exposure` (liters per minute). -/
def breathing_rates : List (String × ℚ) :=
  [("resting", 8), ("light", 15), ("moderate", 25), ("intense", 40)]

/-- Response record of `/calculate-exposure` (success case). -/
structure ExposureSummary where
  total_exposure_score : ℤ
  weighted_exposure : ℤ
  risk_level : String
  equivalent_hours_at_aqi_100 : ℚ
  recommendation : String
deriving DecidableEq

/-- Failure modes of `/calculate-exposure`: the explicit HTTP 400 raised on
unequal array lengths, and a Python `KeyError` (shown unreachable below). -/
inductive ExposureError
  | lengthMismatch
  | keyError
deriving DecidableEq

/-- The accumulation loop of `calculate_exposure`: walks the three arrays in
step, threading the `(total_exposure, weighted_exposure)` accumulator. -/
def exposureLoop : List ℤ → List ℤ → List String → ℚ × ℚ → ℚ × ℚ
  | a :: as, d :: ds, act :: acts, (t, w) =>
      let breathing_rate := ((breathing_rates.lookup act).getD 15 : ℚ)
      let exposure := (a : ℚ) * (d : ℚ) * (breathing_rate / 15)
      exposureLoop as ds acts (t + exposure, w + exposure * ((a : ℚ) / 100))
  | _, _, _, acc => acc

/-- The `recommendations` dict of `get_exposure_recommendation`. -/
def EXPOSURE_RECOMMENDATIONS : List (String × String) :=
  [("low", "Your exposure is within safe limits. Continue monitoring air quality."),
   ("moderate", "Consider reducing time in polluted areas. Use air purification at home."),
   ("high", "Your exposure is elevated. Limit outdoor activities and use protective measures."),
   ("very_high", "Serious exposure detected. Seek cleaner air environments and consult healthcare provider if experiencing symptoms.")]

/-- `get_exposure_recommendation`: dict lookup (`none` models a `KeyError`). -/
def get_exposure_recommendation (risk_level : String) : Option String :=
  EXPOSURE_RECOMMENDATIONS.lookup risk_level

/-- `calculate_exposure` endpoint body. -/
def calculate_exposure (aqi_history : List ℤ) (duration_minutes : List ℤ)
    (activity_levels : List String) : Except ExposureError ExposureSummary :=
  if aqi_history.length ≠ duration_minutes.length ∨
      aqi_history.length ≠ activity_levels.length then
    .error .lengthMismatch
  else
    let acc := exposureLoop aqi_history duration_minutes activity_levels (0, 0)
    let total_exposure := acc.1
    let weighted_exposure := acc.2
    let risk_level :=
      if 15000 < weighted_exposure then "very_high"
      else if 10000 < weighted_exposure then "high"
      else if 5000 < weighted_exposure then "moderate"
      else "low"
    match get_exposure_recommendation risk_level with
    | some msg =>
        .ok { total_exposure_score := pythonRound total_exposure
              weighted_exposure := pythonRound weighted_exposure
              risk_level := risk_level
              equivalent_hours_at_aqi_100 := pythonRound1 (weighted_exposure / 100 / 60)
              recommendation := msg }
    | none => .error .keyError

/-- The `activities_by_aqi` catalog of `suggest_activities`. -/
def activities_by_aqi : List ((ℤ × ℤ) × List String) :=
  [((0, 50), ["running", "cycling", "outdoor_yoga", "hiking", "sports"]),
   ((51, 100), ["walking", "light_jogging", "outdoor_dining", "photography"]),
   ((101, 150), ["indoor_gym", "mall_walking", "indoor_swimming", "shopping"]),
   ((151, 500), ["indoor_yoga", "home_workout", "reading", "stay_indoors"])]

/-- One entry of `suggested_activities`. -/
structure ActivitySuggestion where
  activity : String
  current_suitability : String
  recommendation : String
deriving DecidableEq

/-- The `best_time_next_6h` record. -/
structure BestTimeNext6h where
  hour : ℕ
  aqi : ℤ
  message : String
deriving DecidableEq

/-- Response record of `/suggest-activities` (success case). -/
structure SuggestResponse where
  current_aqi : ℤ
  suggested_activities : List ActivitySuggestion
  best_time_next_6h : BestTimeNext6h
deriving DecidableEq

/-- Failure mode of `/suggest-activities`: the Python `ValueError` raised by
`min(range(len(forecast_next_6h)), ...)` when the forecast list is empty. -/
inductive SuggestError
  | minEmptySequence
deriving DecidableEq

/-- The catalog loop of `suggest_activities`: suggestions from the first
band of `activities_by_aqi` containing `current_aqi` (the loop `break`s after
the first match), filtered by preference. -/
def suggestionsFor (current_aqi : ℤ) (user_preferences : List String) :
    List ActivitySuggestion :=
  match activities_by_aqi.find? (fun p =>
      decide (p.1.1 ≤ current_aqi) && decide (current_aqi ≤ p.1.2)) with
  | some p =>
      (p.2.filter (fun a => user_preferences.contains a || user_preferences.isEmpty)).map
        (fun a =>
          { activity := a
            current_suitability := if current_aqi < 100 then "suitable" else "limited"
            recommendation := "Air quality is " ++ get_aqi_category current_aqi })
  | none => []

/-- Python `min(range(n), key=...)` over a tail of values: returns the first
index attaining the minimum together with that minimum. -/
def minIndexAux : List ℤ → ℕ → ℕ → ℤ → ℕ × ℤ
  | [], _, best_i, best_v => (best_i, best_v)
  | x :: xs, i, best_i, best_v =>
      if x < best_v then minIndexAux xs (i + 1) i x
      else minIndexAux xs (i + 1) best_i best_v

/-- `suggest_activities` endpoint body. -/
def suggest_activities (current_aqi : ℤ) (forecast_next_6h : List ℤ)
    (user_preferences : List String) : Except SuggestError SuggestResponse :=
  match forecast_next_6h with
  | [] => .error .minEmptySequence
  | x :: xs =>
      let suggestions := suggestionsFor current_aqi user_preferences
      let best := minIndexAux xs 1 0 x
      .ok { current_aqi := current_aqi
            suggested_activities := suggestions.take 5
            best_time_next_6h :=
              { hour := best.1
                aqi := best.2
                message := "Best air quality expected in " ++ toString best.1 ++ " hour(s)" } }

/-- The EPA `breakpoints` table of `convert_pm25_to_aqi`:
`(bp_lo, bp_hi, aqi_lo, aqi_hi)`. -/
def breakpoints : List (ℚ × ℚ × ℚ × ℚ) :=
  [(0, 12.0, 0, 50),
   (12.1, 35.4, 51, 100),
   (35.5, 55.4, 101, 150),
   (55.5, 150.4, 151, 200),
   (150.5, 250.4, 201, 300),
   (250.5, 500.4, 301, 500)]

/-- Response record of `/pm25-to-aqi`. -/
structure ConvertResponse where
  pm25 : ℚ
  aqi : ℤ
  category : String
deriving DecidableEq

/-- The breakpoint loop of `convert_pm25_to_aqi`: linear interpolation on
the first tuple whose inclusive range contains `pm25`. -/
def breakpointLookup (pm25 : ℚ) : List (ℚ × ℚ × ℚ × ℚ) → Option ConvertResponse
  | [] => none
  | (bp_lo, bp_hi, aqi_lo, aqi_hi) :: rest =>
      if bp_lo ≤ pm25 ∧ pm25 ≤ bp_hi then
        let aqi := (aqi_hi - aqi_lo) / (bp_hi - bp_lo) * (pm25 - bp_lo) + aqi_lo
        some { pm25 := pm25
               aqi := pythonRound aqi
               category := get_aqi_category (pythonRound aqi) }
      else breakpointLookup pm25 rest

/-- `convert_pm25_to_aqi` endpoint body: interpolation with a saturating
`(500, "hazardous")` fallback when no tuple matches. -/
def convert_pm25_to_aqi (pm25 : ℚ) : ConvertResponse :=
  match breakpointLookup pm25 breakpoints with
  | some r => r
  | none => { pm25 := pm25, aqi := 500, category := "hazardous" }

/-- Concrete reading used as a test fixture (optional pollutant fields absent). -/
def mkAir (pm25 : ℚ) (aqi : ℤ) : AirQualityData :=
  { pm25 := pm25, pm10 := none, co2 := none, o3 := none, no2 := none,
    aqi := aqi, temperature := 20, humidity := 50, timestamp := 0 }

/-- Concrete health profile used as a test fixture (no condition flags, age 30). -/
def mkProfile (s : SensitivityLevel) : HealthProfile :=
  { age := 30, has_asthma := false, has_copd := false, has_heart_condition := false,
    is_pregnant := false, is_child := false, is_elderly := false, sensitivity_level := s }

/-- Helper: `get_aqi_category` as an explicit threshold cascade. -/
lemma get_aqi_category_eq (aqi : ℤ) :
    get_aqi_category aqi =
      if 0 ≤ aqi ∧ aqi ≤ 50 then "good"
      else if 51 ≤ aqi ∧ aqi ≤ 100 then "moderate"
      else if 101 ≤ aqi ∧ aqi ≤ 150 then "unhealthy_sensitive"
      else if 151 ≤ aqi ∧ aqi ≤ 200 then "unhealthy"
      else if 201 ≤ aqi ∧ aqi ≤ 300 then "very_unhealthy"
      else if 301 ≤ aqi ∧ aqi ≤ 500 then "hazardous"
      else "hazardous" := by
  simp only [get_aqi_category, AQI_CATEGORIES, categoryLookup]
  split_ifs <;> rfl

/-- C8: on `[0, 500]` exactly one of the six bands of `AQI_CATEGORIES`
contains a given AQI and `get_aqi_category` returns that band's label; every
AQI at least 301 maps to `"hazardous"`, as does every AQI above 500 or below
0 (defensive fallback, no error). -/
theorem get_aqi_category_bands (aqi : ℤ) :
    (0 ≤ aqi → aqi ≤ 500 →
      (AQI_CATEGORIES.countP (fun p => decide (p.2.1 ≤ aqi ∧ aqi ≤ p.2.2))) = 1 ∧
      ∀ p ∈ AQI_CATEGORIES, p.2.1 ≤ aqi → aqi ≤ p.2.2 → get_aqi_category aqi = p.1) ∧
    (301 ≤ aqi → get_aqi_category aqi = "hazardous") ∧
    ((aqi < 0 ∨ 500 < aqi) → get_aqi_category aqi = "hazardous") := by
  refine ⟨fun h0 h500 => ⟨?_, ?_⟩, fun h => ?_, fun h => ?_⟩
  · simp only [AQI_CATEGORIES, List.countP_cons, List.countP_nil, decide_eq_true_eq]
    split_ifs <;> omega
  · intro p hp h1 h2
    rw [get_aqi_category_eq]
    fin_cases hp <;> dsimp only at h1 h2 ⊢ <;> split_ifs <;> first | rfl | omega
  · rw [get_aqi_category_eq]
    split_ifs <;> first | rfl | omega
  · rw [get_aqi_category_eq]
    split_ifs <;> first | rfl | omega

/-- Witness for `get_aqi_category_bands` at AQI 80, 350 and -3. -/
theorem get_aqi_category_bands_witness :
    get_aqi_category 80 = "moderate" ∧
    get_aqi_category 350 = "hazardous" ∧
    get_aqi_category (-3) = "hazardous" :=
  ⟨((get_aqi_category_bands 80).1 (by norm_num) (by norm_num)).2 ("moderate", 51, 100)
      (by simp [AQI_CATEGORIES]) (by norm_num) (by norm_num),
   (get_aqi_category_bands 350).2.1 (by norm_num),
   (get_aqi_category_bands (-3)).2.2 (Or.inl (by norm_num))⟩

/-- C9: the safe-window calculator returns 240 below AQI 50, 120 below 100,
30 or 60 below 150 depending on high/very_high sensitivity, 30 or 15 below
200 depending on low sensitivity, and 0 from 200 up. -/
theorem calculate_safe_window_spec (aq : AirQualityData) (hp : HealthProfile) :
    (aq.aqi < 50 → calculate_safe_window aq hp = 240) ∧
    (50 ≤ aq.aqi → aq.aqi < 100 → calculate_safe_window aq hp = 120) ∧
    (100 ≤ aq.aqi → aq.aqi < 150 →
      calculate_safe_window aq hp =
        if hp.sensitivity_level = .high ∨ hp.sensitivity_level = .very_high
        then 30 else 60) ∧
    (150 ≤ aq.aqi → aq.aqi < 200 →
      calculate_safe_window aq hp =
        if hp.sensitivity_level = .low then 30 else 15) ∧
    (200 ≤ aq.aqi → calculate_safe_window aq hp = 0) := by
  unfold calculate_safe_window
  refine ⟨fun h => ?_, fun h1 h2 => ?_, fun h1 h2 => ?_, fun h1 h2 => ?_, fun h => ?_⟩ <;>
    split_ifs <;> first | rfl | omega

/-- Witness for `calculate_safe_window_spec`: AQI 40 gives 240, AQI 180 with
low sensitivity gives 30, AQI 250 gives 0. -/
theorem calculate_safe_window_witness :
    calculate_safe_window (mkAir 10 40) (mkProfile .moderate) = 240 ∧
    calculate_safe_window (mkAir 10 180) (mkProfile .low) = 30 ∧
    calculate_safe_window (mkAir 10 250) (mkProfile .high) = 0 := by
  refine ⟨(calculate_safe_window_spec _ _).1 (by norm_num [mkAir]), ?_,
    (calculate_safe_window_spec _ _).2.2.2.2 (by norm_num [mkAir])⟩
  have h := (calculate_safe_window_spec (mkAir 10 180) (mkProfile .low)).2.2.2.1
    (by norm_num [mkAir]) (by norm_num [mkAir])
  simpa [mkProfile] using h

/-- Helper: the breakpoint loop returns `none` when no tuple matches. -/
lemma breakpointLookup_eq_none (pm25 : ℚ) (l : List (ℚ × ℚ × ℚ × ℚ))
    (h : ∀ bp ∈ l, ¬(bp.1 ≤ pm25 ∧ pm25 ≤ bp.2.1)) :
    breakpointLookup pm25 l = none := by
  induction l with
  | nil => rfl
  | cons p rest ih =>
    obtain ⟨lo, hi, alo, ahi⟩ := p
    simp only [breakpointLookup]
    rw [if_neg (h (lo, hi, alo, ahi) (List.mem_cons_self _ _))]
    exact ih (fun bp hbp => h bp (List.mem_cons_of_mem _ hbp))

/-- C5: `convert_pm25_to_aqi` maps 12.0 to AQI 50 and 0 to AQI 0, and for
every concentration matched by no breakpoint tuple (above 500.4, in a gap
between tuples, or negative) returns the saturating
`(aqi = 500, "hazardous")` fallback rather than an error. -/
theorem convert_pm25_to_aqi_spec :
    convert_pm25_to_aqi 12 = { pm25 := 12, aqi := 50, category := "good" } ∧
    convert_pm25_to_aqi 0 = { pm25 := 0, aqi := 0, category := "good" } ∧
    ∀ pm25 : ℚ, (∀ bp ∈ breakpoints, ¬(bp.1 ≤ pm25 ∧ pm25 ≤ bp.2.1)) →
      convert_pm25_to_aqi pm25 = { pm25 := pm25, aqi := 500, category := "hazardous" } := by
  refine ⟨?_, ?_, fun pm25 h => ?_⟩
  · norm_num [convert_pm25_to_aqi, breakpoints, breakpointLookup, pythonRound,
      get_aqi_category, AQI_CATEGORIES, categoryLookup]
  · norm_num [convert_pm25_to_aqi, breakpoints, breakpointLookup, pythonRound,
      get_aqi_category, AQI_CATEGORIES, categoryLookup]
  · unfold convert_pm25_to_aqi
    rw [breakpointLookup_eq_none pm25 breakpoints h]

/-- Helper: the PM2.5-adjusted baseline of the risk score. -/
def riskBase (aq : AirQualityData) : ℚ :=
  if aq.pm25 ≠ 0 then max ((aq.aqi : ℚ) / 5) (min (aq.pm25 / 2) 100)
  else (aq.aqi : ℚ) / 5

/-- Helper: the product of all profile and activity multipliers applied to
the baseline by the risk score. -/
def riskFactor (hp : HealthProfile) (act : ActivityType) : ℚ :=
  activity_multipliers act * sensitivity_multipliers hp.sensitivity_level *
  (if hp.has_asthma || hp.has_copd then 1.5 else 1) *
  (if hp.has_heart_condition then 1.3 else 1) *
  (if hp.is_child || hp.is_elderly then 1.2 else 1) *
  (if hp.is_pregnant then 1.3 else 1) *
  (if hp.age < 12 then 1.2 else if 65 < hp.age then 1.3 else 1)

/-- Helper: a conditionally applied multiplier is multiplication by a
conditional factor. -/
lemma mul_ite_one (c : Prop) [Decidable c] (x k : ℚ) :
    (if c then x * k else x) = x * (if c then k else 1) := by
  split_ifs <;> ring

/-- Helper: a conditional choice between two multiples is multiplication by
a conditional factor. -/
lemma ite_mul_left (c : Prop) [Decidable c] (y a b : ℚ) :
    (if c then y * a else y * b) = y * (if c then a else b) := by
  split_ifs <;> ring

/-- Helper: the risk score in factored form. -/
lemma calculate_health_risk_score_eq (aq : AirQualityData) (hp : HealthProfile)
    (act : ActivityType) :
    calculate_health_risk_score aq hp act = min (riskBase aq * riskFactor hp act) 100 := by
  simp only [calculate_health_risk_score, riskBase, riskFactor, mul_ite_one, ite_mul_left]
  congr 1
  ring

/-- Helper: the multiplier product is strictly positive. -/
lemma riskFactor_pos (hp : HealthProfile) (act : ActivityType) : 0 < riskFactor hp act := by
  have h1 : 0 < activity_multipliers act := by
    cases act <;> norm_num [activity_multipliers]
  have h2 : 0 < sensitivity_multipliers hp.sensitivity_level := by
    cases hs : hp.sensitivity_level <;> norm_num [sensitivity_multipliers]
  unfold riskFactor
  refine mul_pos (mul_pos (mul_pos (mul_pos (mul_pos (mul_pos h1 h2) ?_) ?_) ?_) ?_) ?_ <;>
    split_ifs <;> norm_num

/-- Counterexample to C3 as stated: a well-typed reading with negative AQI
and zero PM2.5 yields a negative risk score, so the result is not always in
`[0, 100]`. -/
theorem risk_score_range_counterexample :
    calculate_health_risk_score (mkAir 0 (-5)) (mkProfile .moderate) .resting < 0 := by
  norm_num [calculate_health_risk_score, mkAir, mkProfile, activity_multipliers,
    sensitivity_multipliers, min_def]

/-- C3 amended: the risk score never exceeds 100, and it lies in `[0, 100]`
whenever the reading's AQI is non-negative; for negative AQI the baseline is
negative and no lower clamp is applied. -/
theorem risk_score_range (aq : AirQualityData) (hp : HealthProfile) (act : ActivityType) :
    calculate_health_risk_score aq hp act ≤ 100 ∧
    (0 ≤ aq.aqi →
      0 ≤ calculate_health_risk_score aq hp act ∧
      calculate_health_risk_score aq hp act ≤ 100) := by
  have hub : calculate_health_risk_score aq hp act ≤ 100 := by
    rw [calculate_health_risk_score_eq]
    exact min_le_right _ _
  refine ⟨hub, fun h0 => ⟨?_, hub⟩⟩
  rw [calculate_health_risk_score_eq]
  have haqi : (0 : ℚ) ≤ (aq.aqi : ℚ) / 5 :=
    div_nonneg (by exact_mod_cast h0) (by norm_num)
  have hbase : 0 ≤ riskBase aq := by
    unfold riskBase
    split_ifs
    · exact le_trans haqi (le_max_left _ _)
    · exact haqi
  exact le_min (mul_nonneg hbase (riskFactor_pos hp act).le) (by norm_num)

/-- Witness for `risk_score_range` at AQI 75, PM2.5 10. -/
theorem risk_score_range_witness :
    0 ≤ calculate_health_risk_score (mkAir 10 75) (mkProfile .moderate) .resting ∧
    calculate_health_risk_score (mkAir 10 75) (mkProfile .moderate) .resting ≤ 100 :=
  (risk_score_range (mkAir 10 75) (mkProfile .moderate) .resting).2 (by norm_num [mkAir])

/-- Counterexample to C4 as stated: with a (well-typed, unvalidated)
negative AQI, raising PM2.5 from -1 to 0 lowers the truthiness guard
`if air_quality.pm25:` and the score drops, so the score is not
monotonically non-decreasing in the pm25 field over all readings. -/
theorem risk_score_monotone_counterexample :
    (-1 : ℚ) ≤ 0 ∧
    calculate_health_risk_score (mkAir 0 (-1000)) (mkProfile .moderate) .resting <
      calculate_health_risk_score (mkAir (-1) (-1000)) (mkProfile .moderate) .resting := by
  constructor
  · norm_num
  · norm_num [calculate_health_risk_score, mkAir, mkProfile, activity_multipliers,
      sensitivity_multipliers, min_def, max_def]

/-- C4 amended: holding profile, activity and all other reading fields
fixed, the risk score is monotonically non-decreasing in the aqi field
(unconditionally), and monotonically non-decreasing in the pm25 field for
every reading whose aqi is non-negative. -/
theorem risk_score_monotone (aq : AirQualityData) (hp : HealthProfile) (act : ActivityType) :
    (∀ a₁ a₂ : ℤ, a₁ ≤ a₂ →
      calculate_health_risk_score { aq with aqi := a₁ } hp act ≤
        calculate_health_risk_score { aq with aqi := a₂ } hp act) ∧
    (0 ≤ aq.aqi → ∀ p₁ p₂ : ℚ, p₁ ≤ p₂ →
      calculate_health_risk_score { aq with pm25 := p₁ } hp act ≤
        calculate_health_risk_score { aq with pm25 := p₂ } hp act) := by
  have hf := (riskFactor_pos hp act).le
  constructor
  · intro a₁ a₂ h
    rw [calculate_health_risk_score_eq, calculate_health_risk_score_eq]
    refine min_le_min (mul_le_mul_of_nonneg_right ?_ hf) le_rfl
    unfold riskBase
    dsimp only
    have hq : (a₁ : ℚ) / 5 ≤ (a₂ : ℚ) / 5 := by
      have : (a₁ : ℚ) ≤ (a₂ : ℚ) := by exact_mod_cast h
      linarith
    split_ifs
    · exact max_le_max hq le_rfl
    · exact hq
  · intro h0 p₁ p₂ h
    rw [calculate_health_risk_score_eq, calculate_health_risk_score_eq]
    refine min_le_min (mul_le_mul_of_nonneg_right ?_ hf) le_rfl
    unfold riskBase
    dsimp only
    have haqi : (0 : ℚ) ≤ (aq.aqi : ℚ) / 5 :=
      div_nonneg (by exact_mod_cast h0) (by norm_num)
    rcases eq_or_ne p₁ 0 with h1 | h1 <;> rcases eq_or_ne p₂ 0 with h2 | h2
    · simp [h1, h2]
    · rw [if_neg (not_ne_iff.mpr h1), if_pos h2]
      exact le_max_left _ _
    · rw [if_pos h1, if_neg (not_ne_iff.mpr h2)]
      have hp1 : p₁ < 0 := lt_of_le_of_ne (h2 ▸ h) h1
      exact max_le le_rfl (le_trans (min_le_left _ _) (by linarith))
    · rw [if_pos h1, if_pos h2]
      exact max_le_max le_rfl (min_le_min (by linarith) le_rfl)

/-- Witness for `risk_score_monotone`: AQI 40 to 80 and PM2.5 5 to 20. -/
theorem risk_score_monotone_witness :
    calculate_health_risk_score { mkAir 10 40 with aqi := 40 } (mkProfile .moderate) .resting ≤
      calculate_health_risk_score { mkAir 10 40 with aqi := 80 } (mkProfile .moderate) .resting ∧
    calculate_health_risk_score { mkAir 10 40 with pm25 := 5 } (mkProfile .moderate) .resting ≤
      calculate_health_risk_score { mkAir 10 40 with pm25 := 20 } (mkProfile .moderate) .resting :=
  ⟨(risk_score_monotone (mkAir 10 40) (mkProfile .moderate) .resting).1 40 80 (by norm_num),
   (risk_score_monotone (mkAir 10 40) (mkProfile .moderate) .resting).2
     (by norm_num [mkAir]) 5 20 (by norm_num)⟩

/-- Helper: bounded existence splits over an append. -/
lemma exists_mem_append {α : Type} (l₁ l₂ : List α) (P : α → Prop) :
    (∃ r ∈ l₁ ++ l₂, P r) ↔ (∃ r ∈ l₁, P r) ∨ (∃ r ∈ l₂, P r) := by
  constructor
  · rintro ⟨r, hr, h⟩
    rcases List.mem_append.mp hr with h1 | h2
    exacts [Or.inl ⟨r, h1, h⟩, Or.inr ⟨r, h2, h⟩]
  · rintro (⟨r, hr, h⟩ | ⟨r, hr, h⟩)
    exacts [⟨r, List.mem_append_left _ hr, h⟩, ⟨r, List.mem_append_right _ hr, h⟩]

/-- Helper: bounded existence splits over a conditional list. -/
lemma exists_mem_ite {α : Type} (c : Prop) [Decidable c] (l₁ l₂ : List α) (P : α → Prop) :
    (∃ r ∈ (if c then l₁ else l₂), P r) ↔
      (c ∧ ∃ r ∈ l₁, P r) ∨ (¬c ∧ ∃ r ∈ l₂, P r) := by
  split_ifs with h <;> simp [h]

/-- Helper: bounded existence over a singleton. -/
lemma exists_mem_singleton {α : Type} (x : α) (P : α → Prop) :
    (∃ r ∈ [x], P r) ↔ P x := by
  simp

/-- Helper: a `"use_air_purifier"` entry appears in the recommendation list
exactly when the location is indoor and PM2.5 exceeds 35 (no other rule
emits that action tag). -/
lemma use_air_purifier_iff (risk_score : ℚ) (aqi_category : String)
    (aq : AirQualityData) (hp : HealthProfile) (act : ActivityType)
    (dur : ℤ) (loc : String) :
    (∃ r ∈ generate_recommendations risk_score aqi_category aq hp act dur loc,
        r.action = "use_air_purifier") ↔ loc = "indoor" ∧ 35 < aq.pm25 := by
  unfold generate_recommendations
  rcases hco : aq.co2 with _ | c <;>
    simp only [hco, exists_mem_append, exists_mem_ite, exists_mem_singleton,
      List.mem_nil_iff, false_and, exists_false, or_false, and_false, and_true,
      not_exists, exists_and_left, exists_prop] <;>
    simp

/-- C10: in the analyze-health-risk response, the purifier flag is true
exactly for indoor requests with PM2.5 above 35 or AQI above 100, while a
`"use_air_purifier"` recommendation appears exactly for indoor requests with
PM2.5 above 35; hence an indoor request with PM2.5 at most 35 and AQI above
100 sets the flag with no matching recommendation. -/
theorem analyze_purifier_flag (request : RecommendationRequest) :
    ((analyze_health_risk request).air_purifier_recommended = true ↔
      request.location_type = "indoor" ∧
        (35 < request.air_quality.pm25 ∨ 100 < request.air_quality.aqi)) ∧
    ((∃ r ∈ (analyze_health_risk request).recommendations,
        r.action = "use_air_purifier") ↔
      request.location_type = "indoor" ∧ 35 < request.air_quality.pm25) ∧
    (request.location_type = "indoor" → request.air_quality.pm25 ≤ 35 →
      100 < request.air_quality.aqi →
      (analyze_health_risk request).air_purifier_recommended = true ∧
      ∀ r ∈ (analyze_health_risk request).recommendations,
        r.action ≠ "use_air_purifier") := by
  have hflag : (analyze_health_risk request).air_purifier_recommended = true ↔
      request.location_type = "indoor" ∧
        (35 < request.air_quality.pm25 ∨ 100 < request.air_quality.aqi) := by
    simp [analyze_health_risk, should_use_purifier]
  have hmem : (∃ r ∈ (analyze_health_risk request).recommendations,
      r.action = "use_air_purifier") ↔
      request.location_type = "indoor" ∧ 35 < request.air_quality.pm25 := by
    have h := use_air_purifier_iff
      (calculate_health_risk_score request.air_quality request.health_profile
        request.intended_activity)
      (get_aqi_category request.air_quality.aqi)
      request.air_quality request.health_profile request.intended_activity
      request.duration_minutes request.location_type
    simpa [analyze_health_risk] using h
  refine ⟨hflag, hmem, fun hloc hpm haqi => ⟨hflag.mpr ⟨hloc, Or.inr haqi⟩, ?_⟩⟩
  intro r hr heq
  exact absurd (hmem.mp ⟨r, hr, heq⟩).2 (not_lt.mpr hpm)

/-- Witness for `analyze_purifier_flag`: indoor request with PM2.5 30 and
AQI 150 sets the flag but produces no `"use_air_purifier"` entry. -/
theorem analyze_purifier_flag_witness :
    (analyze_health_risk
        ⟨mkAir 30 150, mkProfile .moderate, .resting, 60, "indoor"⟩).air_purifier_recommended
      = true ∧
    ∀ r ∈ (analyze_health_risk
        ⟨mkAir 30 150, mkProfile .moderate, .resting, 60, "indoor"⟩).recommendations,
      r.action ≠ "use_air_purifier" :=
  (analyze_purifier_flag _).2.2 rfl (by norm_num [mkAir]) (by norm_num [mkAir])

/-- Counterexample to C2 as stated: with an empty 6-hour forecast list,
`suggest_activities` does not return a result — the `min()` call over the
empty index range raises a Python `ValueError` (surfaced as an HTTP 500). -/
theorem suggest_activities_empty_counterexample :
    suggest_activities 50 [] [] = .error .minEmptySequence := rfl

/-- C2 amended: `suggest_activities` returns a result for every integer
current AQI, every non-empty forecast list and every preference list; on an
empty forecast list it aborts with the `min()` empty-sequence error. -/
theorem suggest_activities_total (current_aqi : ℤ) (forecast_next_6h : List ℤ)
    (user_preferences : List String) :
    (forecast_next_6h ≠ [] →
      ∃ r, suggest_activities current_aqi forecast_next_6h user_preferences = .ok r) ∧
    (forecast_next_6h = [] →
      suggest_activities current_aqi forecast_next_6h user_preferences =
        .error .minEmptySequence) := by
  constructor
  · intro h
    match forecast_next_6h, h with
    | x :: xs, _ => exact ⟨_, rfl⟩
  · intro h
    subst h
    rfl

/-- Witness for `suggest_activities_total` on the one-element forecast. -/
theorem suggest_activities_total_witness :
    ∃ r, suggest_activities 50 [40] [] = .ok r :=
  (suggest_activities_total 50 [40] []).1 (by simp)

/-- The per-interval breathing rate asserted by the specification: 8, 15,
25, 40 for the four labels and 15 for any unrecognized label. -/
def breathingRateSpec (activity : String) : ℚ :=
  if activity = "resting" then 8
  else if activity = "light" then 15
  else if activity = "moderate" then 25
  else if activity = "intense" then 40
  else 15

/-- The cumulative exposure sum asserted by the specification:
`Σ aqi · duration · (breathingRate / 15)` over the zipped intervals. -/
def exposureTotalSpec (aqi_history duration_minutes : List ℤ)
    (activity_levels : List String) : ℚ :=
  ((aqi_history.zip (duration_minutes.zip activity_levels)).map
    (fun x => (x.1 : ℚ) * (x.2.1 : ℚ) * (breathingRateSpec x.2.2 / 15))).sum

/-- The AQI-weighted exposure sum asserted by the specification:
`Σ exposure · (aqi / 100)` over the zipped intervals. -/
def exposureWeightedSpec (aqi_history duration_minutes : List ℤ)
    (activity_levels : List String) : ℚ :=
  ((aqi_history.zip (duration_minutes.zip activity_levels)).map
    (fun x => (x.1 : ℚ) * (x.2.1 : ℚ) * (breathingRateSpec x.2.2 / 15) * ((x.1 : ℚ) / 100))).sum

/-- Helper: the code's dict lookup with default 15 agrees with the
specification's breathing rate. -/
lemma lookup_breathing_rates (activity : String) :
    ((breathing_rates.lookup activity).getD 15 : ℚ) = breathingRateSpec activity := by
  simp only [breathing_rates, List.lookup]
  repeat' split
  all_goals simp_all [breathingRateSpec]

/-- Helper: the accumulation loop computes the two specification sums on
top of its accumulator. -/
lemma exposureLoop_eq (aqi_history duration_minutes : List ℤ)
    (activity_levels : List String) (t w : ℚ) :
    exposureLoop aqi_history duration_minutes activity_levels (t, w) =
      (t + exposureTotalSpec aqi_history duration_minutes activity_levels,
       w + exposureWeightedSpec aqi_history duration_minutes activity_levels) := by
  induction aqi_history generalizing duration_minutes activity_levels t w with
  | nil => simp [exposureLoop, exposureTotalSpec, exposureWeightedSpec]
  | cons a as ih =>
    cases duration_minutes with
    | nil => simp [exposureLoop, exposureTotalSpec, exposureWeightedSpec]
    | cons d ds =>
      cases activity_levels with
      | nil => simp [exposureLoop, exposureTotalSpec, exposureWeightedSpec]
      | cons act acts =>
        simp only [exposureLoop, ih, exposureTotalSpec, exposureWeightedSpec,
          List.zip_cons_cons, List.map_cons, List.sum_cons, lookup_breathing_rates]
        refine Prod.ext ?_ ?_ <;> dsimp only <;> ring

/-- Helper: on equal-length inputs `calculate_exposure` succeeds and its
total and weighted scores are the rounded specification sums. -/
lemma calculate_exposure_eq_ok (a d : List ℤ) (l : List String)
    (h1 : a.length = d.length) (h2 : a.length = l.length) :
    (calculate_exposure a d l).map (fun s => (s.total_exposure_score, s.weighted_exposure)) =
      .ok (pythonRound (exposureTotalSpec a d l),
           pythonRound (exposureWeightedSpec a d l)) := by
  unfold calculate_exposure
  rw [if_neg (by omega)]
  simp only [exposureLoop_eq, zero_add]
  split_ifs <;>
    simp [get_exposure_recommendation, EXPOSURE_RECOMMENDATIONS, List.lookup, Except.map]

/-- C7: `calculate_exposure` fails with the length-mismatch error exactly
when the three arrays do not share one length; on equal lengths it returns
the rounded cumulative sum `Σ aqi · duration · (breathingRate / 15)` and
weighted sum `Σ exposure · (aqi / 100)`, with rates 8/15/25/40 for
resting/light/moderate/intense and 15 otherwise. -/
theorem calculate_exposure_spec (aqi_history duration_minutes : List ℤ)
    (activity_levels : List String) :
    ((calculate_exposure aqi_history duration_minutes activity_levels =
        .error .lengthMismatch) ↔
      ¬(aqi_history.length = duration_minutes.length ∧
        aqi_history.length = activity_levels.length)) ∧
    (aqi_history.length = duration_minutes.length →
      aqi_history.length = activity_levels.length →
      (calculate_exposure aqi_history duration_minutes activity_levels).map
          (fun s => (s.total_exposure_score, s.weighted_exposure)) =
        .ok (pythonRound (exposureTotalSpec aqi_history duration_minutes activity_levels),
             pythonRound (exposureWeightedSpec aqi_history duration_minutes activity_levels))) := by
  refine ⟨⟨fun hc hand => ?_, fun hn => ?_⟩, fun h1 h2 => calculate_exposure_eq_ok _ _ _ h1 h2⟩
  · obtain ⟨h1, h2⟩ := hand
    have h := calculate_exposure_eq_ok aqi_history duration_minutes activity_levels h1 h2
    rw [hc] at h
    exact absurd h (by simp [Except.map])
  · unfold calculate_exposure
    rw [if_pos (by tauto)]

/-- Witness for `calculate_exposure_spec`: mismatched lengths fail, and a
single moderate interval of 30 minutes at AQI 50 scores 2500 total and 1250
weighted. -/
theorem calculate_exposure_witness :
    calculate_exposure [50, 60] [30] [] = .error .lengthMismatch ∧
    (calculate_exposure [50] [30] ["moderate"]).map
        (fun s => (s.total_exposure_score, s.weighted_exposure)) =
      .ok (2500, 1250) := by
  constructor
  · exact (calculate_exposure_spec [50, 60] [30] []).1.mpr (by simp)
  · have h := (calculate_exposure_spec [50] [30] ["moderate"]).2 (by simp) (by simp)
    rw [h]
    have hr : breathingRateSpec "moderate" = 25 := by simp [breathingRateSpec]
    simp only [exposureTotalSpec, exposureWeightedSpec, hr,
      List.zip_cons_cons, List.zip_nil_right, List.map_cons, List.map_nil,
      List.sum_cons, List.sum_nil]
    norm_num [pythonRound]

/-- The diurnal (time-of-day) multiplier applied inside the forecast loop:
1.15 in the rush-hour bands, 0.90 in the early-morning band, else 1. -/
def diurnalFactor (hour_of_day : ℕ) : ℚ :=
  if (7 ≤ hour_of_day ∧ hour_of_day ≤ 9) ∨ (17 ≤ hour_of_day ∧ hour_of_day ≤ 19) then 1.15
  else if 2 ≤ hour_of_day ∧ hour_of_day ≤ 5 then 0.90
  else 1

/-- The clock-independent observables of a forecast response: per-point
predicted AQI, category and confidence, plus the series trend label
(timestamps excluded). -/
def forecastObservables (r : ForecastResponse) : List (ℤ × String × String) × String :=
  (r.forecasts.map (fun p => (p.predicted_aqi, p.category, p.confidence)), r.trend)

/-- Helper: clamping to [0, 500] is the identity on the diurnally adjusted
baseline 80. -/
lemma clamp80_diurnal (hd : ℕ) :
    max 0 (min 500 (if (7 ≤ hd ∧ hd ≤ 9) ∨ (17 ≤ hd ∧ hd ≤ 19) then (80 : ℚ) * 1.15
      else if 2 ≤ hd ∧ hd ≤ 5 then 80 * 0.90 else 80)) = 80 * diurnalFactor hd := by
  unfold diurnalFactor
  split_ifs <;> norm_num [max_def, min_def]

/-- Helper: on a history of 24 identical readings of 80 the trend is zero
and every forecast point is 80 scaled by the diurnal factor of its projected
hour-of-day, rounded. -/
lemma forecast_aqi_replicate80 (hours_ahead now : ℕ) :
    (forecast_aqi (List.replicate 24 (80 : ℤ)) [] hours_ahead now).map
        (fun r => r.forecasts.map (fun p => p.predicted_aqi)) =
      .ok ((List.range hours_ahead).map
        (fun h => pythonRound (80 * diurnalFactor ((now + h) % 24)))) := by
  have h168 : lastN 168 (List.replicate 24 (80 : ℤ)) = List.replicate 24 80 := by
    simp [lastN]
  have hmean : npMean (lastN 24 (List.replicate 24 (80 : ℤ))) = 80 := by
    simp [lastN, npMean]
    norm_num
  unfold forecast_aqi
  rw [if_neg (by simp)]
  simp only [Except.map, h168, hmean, List.length_replicate]
  rw [if_neg (by norm_num)]
  simp only [sub_self, zero_mul, zero_div, add_zero, Except.ok.injEq]
  rw [List.map_map]
  refine List.map_congr_left ?_
  intro a _
  simp only [Function.comp]
  rw [clamp80_diurnal]

/-- C6: the forecaster returns the structured insufficient-history error for
every history of fewer than 24 readings; on exactly 24 identical readings of
AQI 80 with 3 hours ahead it succeeds, returning 3 points whose predicted
AQI is 80 scaled only by the diurnal multiplier of the projected
hour-of-day, rounded (the trend term is zero). -/
theorem forecast_aqi_spec :
    (∀ (historical_data : List ℤ) (location : List (String × ℚ))
        (hours_ahead now : ℕ), historical_data.length < 24 →
      forecast_aqi historical_data location hours_ahead now =
        .error .insufficientHistory) ∧
    (∀ now : ℕ,
      (forecast_aqi (List.replicate 24 (80 : ℤ)) [] 3 now).map
          (fun r => r.forecasts.map (fun p => p.predicted_aqi)) =
        .ok ((List.range 3).map
          (fun h => pythonRound (80 * diurnalFactor ((now + h) % 24))))) := by
  constructor
  · intro hist loc ha now h
    unfold forecast_aqi
    rw [if_pos h]
  · intro now
    exact forecast_aqi_replicate80 3 now

/-- Witness for `forecast_aqi_spec`: 23 readings fail; 24 identical readings
of 80 at midnight give predicted series [80, 80, 72] (hour 2 is in the
early-morning 0.90 band). -/
theorem forecast_aqi_spec_witness :
    forecast_aqi (List.replicate 23 (80 : ℤ)) [] 3 0 = .error .insufficientHistory ∧
    (forecast_aqi (List.replicate 24 (80 : ℤ)) [] 3 0).map
        (fun r => r.forecasts.map (fun p => p.predicted_aqi)) = .ok [80, 80, 72] := by
  constructor
  · exact forecast_aqi_spec.1 _ _ _ _ (by simp)
  · rw [forecast_aqi_spec.2 0]
    norm_num [List.range_succ, diurnalFactor, pythonRound]

/-- Counterexample to C1 as stated: the same forecast request (24 identical
readings of 80, one hour ahead) issued at wall-clock hour 0 and at
wall-clock hour 7 yields different predicted AQI series (80 versus 92), so
two calls with identical inputs are not byte-identical — `forecast_aqi`
reads the hidden clock. -/
theorem forecast_aqi_counterexample :
    ¬((forecast_aqi (List.replicate 24 (80 : ℤ)) [] 1 0).map
          (fun r => r.forecasts.map (fun p => p.predicted_aqi)) =
      (forecast_aqi (List.replicate 24 (80 : ℤ)) [] 1 7).map
          (fun r => r.forecasts.map (fun p => p.predicted_aqi))) := by
  rw [forecast_aqi_replicate80, forecast_aqi_replicate80]
  intro hc
  norm_num [diurnalFactor, pythonRound] at hc

/-- C1 amended: every engine component except the forecaster is a pure
function of its arguments; `forecast_aqi` additionally reads the wall
clock, and two calls with identical requests agree on all clock-independent
observables (predicted AQI values, categories, confidence labels and trend)
whenever the two clock readings share the same hour-of-day. -/
theorem forecast_aqi_clock_dependence (historical_data : List ℤ)
    (location : List (String × ℚ)) (hours_ahead : ℕ) (now₁ now₂ : ℕ)
    (h : now₁ % 24 = now₂ % 24) :
    (forecast_aqi historical_data location hours_ahead now₁).map forecastObservables =
      (forecast_aqi historical_data location hours_ahead now₂).map forecastObservables := by
  unfold forecast_aqi
  split_ifs with hlen
  · rfl
  · simp only [Except.map, forecastObservables, Except.ok.injEq, Prod.mk.injEq]
    refine ⟨?_, trivial⟩
    rw [List.map_map, List.map_map]
    refine List.map_congr_left ?_
    intro a _
    have hmod : (now₁ + a) % 24 = (now₂ + a) % 24 := by omega
    simp only [Function.comp]
    rw [hmod]

/-- Witness for `forecast_aqi_clock_dependence`: clock hours 2 and 26 share
the same hour-of-day, so the observables agree. -/
theorem forecast_aqi_clock_dependence_witness :
    (2 : ℕ) % 24 = 26 % 24 ∧
    (forecast_aqi (List.replicate 24 (80 : ℤ)) [] 3 2).map forecastObservables =
      (forecast_aqi (List.replicate 24 (80 : ℤ)) [] 3 26).map forecastObservables :=
  ⟨by norm_num, forecast_aqi_clock_dependence _ _ _ 2 26 (by norm_num)⟩

/-- Witness for `convert_pm25_to_aqi_spec` at the gap value 12.05. -/
theorem convert_pm25_to_aqi_witness :
    (∀ bp ∈ breakpoints, ¬(bp.1 ≤ (12.05 : ℚ) ∧ (12.05 : ℚ) ≤ bp.2.1)) ∧
    convert_pm25_to_aqi 12.05 = { pm25 := 12.05, aqi := 500, category := "hazardous" } := by
  have h : ∀ bp ∈ breakpoints, ¬(bp.1 ≤ (12.05 : ℚ) ∧ (12.05 : ℚ) ≤ bp.2.1) := by
    intro bp hbp
    fin_cases hbp <;> norm_num
  exact ⟨h, convert_pm25_to_aqi_spec.2.2 12.05 h⟩
